import Mathlib

/-!
Verification of the 6ixFlow traffic-prediction service against its
specification.

The repository splits into an offline ML pipeline, a thin prediction
service (FeatureEncoder + PredictionService behind a FastAPI boundary),
and a Next.js dashboard.  The backend source (api/main.py, ml/*.py) is
not part of the checked-in tree here, so those components are modelled
faithfully from the specification text; the dashboard components
(PredictionStats, TrafficMap) are embedded directly from their
TypeScript source.
-/

namespace SixFlow

/-- Congestion level: the fixed ordered set Low < Medium < High used by
both the service and the dashboard. -/
inductive CongestionLevel where
  | Low
  | Medium
  | High
deriving DecidableEq, Repr

/-- Numeric rank of a congestion tier, Low = 0, Medium = 1, High = 2. -/
def CongestionLevel.rank : CongestionLevel → Nat
  | .Low => 0
  | .Medium => 1
  | .High => 2

/-- Modelled from the spec: a calendar timestamp already decomposed into
the fields FeatureEncoder needs (the backend parses an ISO-8601 string
into these; api/main.py is not in the tree). -/
structure Timestamp where
  year : Nat
  month : Nat
  day : Nat
  hour : Nat
  minute : Nat
  second : Nat
deriving DecidableEq, Repr

/-- Modelled from the spec: static road-segment reference data
(identifier, display name, coordinates), loaded once at service start
and never mutated. -/
structure RoadSegment where
  centreline_id : Nat
  location_name : String
  latitude : Rat
  longitude : Rat
deriving DecidableEq, Repr

/-- Modelled from the spec: the fixed-schema feature row derived purely
from a timestamp and a segment (hour-of-day, day-of-week, month,
is-weekend flag, segment identifier). -/
structure FeatureRow where
  hour : Nat
  day_of_week : Nat
  month : Nat
  is_weekend : Bool
  centreline_id : Nat
deriving DecidableEq, Repr

/-- Modelled from the spec: day of week by Zeller's congruence
(calendar semantics, no timezone normalization), renumbered so that
Monday = 0 … Sunday = 6. -/
def dayOfWeek (year month day : Nat) : Nat :=
  let m := if month ≤ 2 then month + 12 else month
  let y := if month ≤ 2 then year - 1 else year
  let k := y % 100
  let j := y / 100
  let h := (day + (13 * (m + 1)) / 5 + k + k / 4 + j / 4 + 5 * j) % 7
  (h + 5) % 7

/-- Weekend flag derived from the day-of-week field (Saturday = 5,
Sunday = 6). -/
def isWeekend (dow : Nat) : Bool := decide (5 ≤ dow)

/-- Error raised by FeatureEncoder on a segment identifier missing from
the static list. -/
inductive EncodeError where
  | unknownSegment
deriving DecidableEq, Repr

/-- Modelled from the spec: the feature derivation itself — hour,
day-of-week, month, weekend flag and segment identifier, all pure
functions of the timestamp and the identifier. -/
def frow (t : Timestamp) (sid : Nat) : FeatureRow :=
  { hour := t.hour
    day_of_week := dayOfWeek t.year t.month t.day
    month := t.month
    is_weekend := isWeekend (dayOfWeek t.year t.month t.day)
    centreline_id := sid }

/-- Modelled from the spec: FeatureEncoder.encode — maps a
(timestamp, segment-identifier) pair to the feature row, total for any
timestamp (no range validation) and any identifier present in the
static segment list, and `UnknownSegment` otherwise. -/
def encode (segs : List RoadSegment) (t : Timestamp) (sid : Nat) :
    Except EncodeError FeatureRow :=
  if segs.any (fun s => s.centreline_id = sid) then
    .ok (frow t sid)
  else
    .error .unknownSegment

/-- Modelled from the spec: the loaded model artifact pair.  The
regressor is an opaque function from feature rows to (possibly
negative) raw counts; the congestion level is derived from the
predicted vehicle count by percentile buckets with cutoffs
`t1` (Low/Medium) and `t2` (Medium/High). -/
structure Models where
  regressor : FeatureRow → Int
  t1 : Int
  t2 : Int

/-- Modelled from the spec: map a predicted vehicle count to its
percentile bucket: Low up to `t1`, Medium up to `t2`, High above. -/
def levelOfCount (t1 t2 c : Int) : CongestionLevel :=
  if c ≤ t1 then .Low else if c ≤ t2 then .Medium else .High

/-- Modelled from the spec: per-request prediction output — segment
identifier, display name, coordinates, predicted vehicle count,
congestion level. -/
structure PredictionResult where
  centreline_id : Nat
  location_name : String
  latitude : Rat
  longitude : Rat
  predicted_vehicles : Int
  congestion_level : CongestionLevel
deriving DecidableEq, Repr

/-- Modelled from the spec: assemble one PredictionResult for a segment
from its feature row — regressor output clamped to non-negative, level
from the percentile bucket, static metadata copied from the segment. -/
def predictOne (m : Models) (s : RoadSegment) (row : FeatureRow) :
    PredictionResult :=
  let count : Int := max (m.regressor row) 0
  { centreline_id := s.centreline_id
    location_name := s.location_name
    latitude := s.latitude
    longitude := s.longitude
    predicted_vehicles := count
    congestion_level := levelOfCount m.t1 m.t2 count }

/-- Failure taxonomy of the prediction service. -/
inductive Failure where
  | modelsNotLoaded
  | invalidTimestamp
  | unknownSegment
deriving DecidableEq, Repr

/-- Modelled from the spec: PredictionService state — the static
segment list plus the model pair, absent until startup loading
completes. -/
structure ServiceState where
  segments : List RoadSegment
  models : Option Models

/-- Modelled from the spec: run FeatureEncoder and the models over each
pending segment in order, propagating `UnknownSegment` should the
encoder ever reject one. -/
def predictList (segs : List RoadSegment) (m : Models) (t : Timestamp) :
    List RoadSegment → Except Failure (List PredictionResult)
  | [] => .ok []
  | s :: rest =>
    match encode segs t s.centreline_id with
    | .error _ => .error .unknownSegment
    | .ok row =>
      match predictList segs m t rest with
      | .error e => .error e
      | .ok rs => .ok (predictOne m s row :: rs)

/-- Modelled from the spec: PredictionService.predictAt — refuse with
`ModelsNotLoaded` before startup loading completes, otherwise one
result per known road segment in the static order. -/
def predictAt (st : ServiceState) (t : Timestamp) :
    Except Failure (List PredictionResult) :=
  match st.models with
  | none => .error .modelsNotLoaded
  | some m => predictList st.segments m t st.segments

/-- Decimal digit value of a character, `none` unless it is 0–9. -/
def digitVal (c : Char) : Option Nat :=
  if c.isDigit then some (c.toNat - 48) else none

/-- Modelled from the spec: parse an ISO-8601 timestamp string of the
shape YYYY-MM-DDTHH:MM:SS into calendar fields, validating the
separators, the digits and the calendar ranges; `none` on anything
malformed. -/
def parseTimestamp (str : String) : Option Timestamp :=
  match str.toList with
  | [y1, y2, y3, y4, s1, mo1, mo2, s2, d1, d2, s3,
     h1, h2, s4, mi1, mi2, s5, se1, se2] =>
    if s1 = '-' ∧ s2 = '-' ∧ s3 = 'T' ∧ s4 = ':' ∧ s5 = ':' then
      match digitVal y1, digitVal y2, digitVal y3, digitVal y4,
            digitVal mo1, digitVal mo2, digitVal d1, digitVal d2,
            digitVal h1, digitVal h2, digitVal mi1, digitVal mi2,
            digitVal se1, digitVal se2 with
      | some a, some b, some c, some d, some e, some f, some g, some h,
        some i, some j, some k, some l, some m, some n =>
        let year := ((a * 10 + b) * 10 + c) * 10 + d
        let month := e * 10 + f
        let day := g * 10 + h
        let hour := i * 10 + j
        let minute := k * 10 + l
        let second := m * 10 + n
        if 1 ≤ month ∧ month ≤ 12 ∧ 1 ≤ day ∧ day ≤ 31 ∧
            hour ≤ 23 ∧ minute ≤ 59 ∧ second ≤ 59 then
          some { year, month, day, hour, minute, second }
        else
          none
      | _, _, _, _, _, _, _, _, _, _, _, _, _, _ => none
    else
      none
  | _ => none

/-- Modelled from the spec: the predict endpoint — parse the request
timestamp, answering `InvalidTimestamp` as a client error when it is
malformed, and delegate to PredictionService otherwise; the failure is
terminal for the request. -/
def predictEndpoint (st : ServiceState) (body : String) :
    Except Failure (List PredictionResult) :=
  match parseTimestamp body with
  | none => .error .invalidTimestamp
  | some t => predictAt st t

/-- Modelled from the spec: startup events of the service process — the
one-time blocking model load. -/
inductive ServerEvent where
  | loadModels (m : Models)

/-- Modelled from the spec: initial server state — segment reference
data present, models not yet loaded. -/
def initState (segs : List RoadSegment) : ServiceState :=
  { segments := segs, models := none }

/-- Modelled from the spec: state transition — loading the artifacts
installs the model pair, leaving the segment list untouched. -/
def step (st : ServiceState) : ServerEvent → ServiceState
  | .loadModels m => { st with models := some m }

/-- Reachable server states: the initial state and anything a sequence
of events produces from it. -/
inductive Reachable (segs : List RoadSegment) : ServiceState → Prop
  | init : Reachable segs (initState segs)
  | next {st : ServiceState} (e : ServerEvent) :
      Reachable segs st → Reachable segs (step st e)

/-- A prediction as the dashboard receives it from `POST /predict_at`
(web/lib usage in PredictionStats.tsx and TrafficMap.tsx). -/
structure TrafficPrediction where
  centreline_id : Nat
  location_name : String
  latitude : Rat
  longitude : Rat
  predicted_vehicles : Int
  congestion_level : CongestionLevel
deriving DecidableEq, Repr

/-- JavaScript Math.round: nearest integer, halves toward +∞. -/
def jsRound (q : Rat) : Int := Rat.floor (q + 1 / 2)

/-- PredictionStats.tsx: `predictions.reduce((sum, p) => sum +
p.predicted_vehicles, 0)`. -/
def totalVehicles (ps : List TrafficPrediction) : Int :=
  ps.foldl (fun sum p => sum + p.predicted_vehicles) 0

/-- PredictionStats.tsx: `Math.round(totalVehicles /
predictions.length)`. -/
def avgVehicles (ps : List TrafficPrediction) : Int :=
  jsRound ((totalVehicles ps : Rat) / (ps.length : Rat))

/-- PredictionStats.tsx: the congestion histogram built by
`predictions.reduce((acc, p) => { acc[p.congestion_level] =
(acc[p.congestion_level] || 0) + 1; return acc; }, {})`, read at one
level. -/
def congestionCount (ps : List TrafficPrediction) (lvl : CongestionLevel) :
    Nat :=
  ps.foldl (fun acc p => if p.congestion_level = lvl then acc + 1 else acc) 0

/-- PredictionStats.tsx: `predictions.reduce((max, p) =>
p.predicted_vehicles > max.predicted_vehicles ? p : max)` — seedless
reduce, so the first element is the accumulator's start. -/
def reduceBusiest (acc : TrafficPrediction) :
    List TrafficPrediction → TrafficPrediction
  | [] => acc
  | p :: ps =>
    reduceBusiest (if acc.predicted_vehicles < p.predicted_vehicles then p else acc) ps

/-- PredictionStats.tsx: `predictions.reduce((min, p) =>
p.predicted_vehicles < min.predicted_vehicles ? p : min)` — seedless
reduce, so the first element is the accumulator's start. -/
def reduceQuietest (acc : TrafficPrediction) :
    List TrafficPrediction → TrafficPrediction
  | [] => acc
  | p :: ps =>
    reduceQuietest (if p.predicted_vehicles < acc.predicted_vehicles then p else acc) ps

/-- Aggregates the PredictionStats component renders in its non-empty
branch. -/
structure StatsData where
  total : Int
  avg : Int
  countLow : Nat
  countMedium : Nat
  countHigh : Nat
  busiestLocation : TrafficPrediction
  quietestLocation : TrafficPrediction
deriving DecidableEq, Repr

/-- The two views PredictionStats can return: the early
"No predictions available" card, or the statistics cards. -/
inductive StatsView where
  | noData
  | stats (d : StatsData)
deriving DecidableEq, Repr

/-- PredictionStats.tsx as a whole: the empty-list guard returns the
no-data card before any aggregate is computed; otherwise every
aggregate of the component body. -/
def predictionStats : List TrafficPrediction → StatsView
  | [] => .noData
  | p :: rest =>
    .stats
      { total := totalVehicles (p :: rest)
        avg := avgVehicles (p :: rest)
        countLow := congestionCount (p :: rest) .Low
        countMedium := congestionCount (p :: rest) .Medium
        countHigh := congestionCount (p :: rest) .High
        busiestLocation := reduceBusiest p rest
        quietestLocation := reduceQuietest p rest }

/-- Marker shape TrafficMap.tsx builds for the map layer. -/
structure MapMarker where
  id : String
  lat : Rat
  lng : Rat
  congestion_level : CongestionLevel
  vehicle_count : Int
  location_name : String
deriving DecidableEq, Repr

/-- TrafficMap.tsx: the per-prediction marker object — id is
`prediction.centreline_id.toString()`, the rest copied field by
field. -/
def toMarker (p : TrafficPrediction) : MapMarker :=
  { id := toString p.centreline_id
    lat := p.latitude
    lng := p.longitude
    congestion_level := p.congestion_level
    vehicle_count := p.predicted_vehicles
    location_name := p.location_name }

/-- TrafficMap.tsx: `const markers = predictions.map(prediction =>
({...}))`. -/
def markers (ps : List TrafficPrediction) : List MapMarker :=
  ps.map toMarker

/-- Demo fixture: a two-segment static list in the shape of the real
49-segment Toronto reference data. -/
def demoSegments : List RoadSegment :=
  [⟨1, "King St W", 43, -79⟩, ⟨2, "Queen St E", 44, -78⟩]

/-- Demo fixture: a model pair whose regressor depends on the segment
identifier, with rank-ordered bucket cutoffs. -/
def demoModels : Models :=
  { regressor := fun row => (row.centreline_id : Int) * 10 - 5
    t1 := 10
    t2 := 100 }

/-- Demo fixture: a service state after startup loading completed. -/
def demoState : ServiceState :=
  { segments := demoSegments, models := some demoModels }

/-- Demo fixture: 2024-10-03 17:00:00, a Thursday. -/
def demoTime : Timestamp := ⟨2024, 10, 3, 17, 0, 0⟩

/-- Demo fixture: a model pair whose raw regressor output is negative,
exercising the non-negative clamp. -/
def demoNegModels : Models :=
  { regressor := fun _ => -7, t1 := 10, t2 := 100 }

/-- Demo fixture: a loaded service state around `demoNegModels`. -/
def demoNegState : ServiceState :=
  { segments := demoSegments, models := some demoNegModels }

lemma encode_ok_of_mem {segs : List RoadSegment} {s : RoadSegment}
    (hs : s ∈ segs) (t : Timestamp) :
    encode segs t s.centreline_id = .ok (frow t s.centreline_id) := by
  unfold encode
  rw [if_pos]
  exact List.any_eq_true.mpr ⟨s, hs, by simp⟩

lemma predictAt_eq_of_loaded {st : ServiceState} {m : Models}
    (hm : st.models = some m) (t : Timestamp) :
    predictAt st t = predictList st.segments m t st.segments := by
  unfold predictAt
  rw [hm]

lemma predictAt_eq_of_none {st : ServiceState} (hm : st.models = none)
    (t : Timestamp) :
    predictAt st t = .error .modelsNotLoaded := by
  unfold predictAt
  rw [hm]

lemma levelOfCount_rank_mono (t1 t2 : Int) (_h12 : t1 ≤ t2) (c2 c1 : Int)
    (hc : c2 ≤ c1) :
    (levelOfCount t1 t2 c2).rank ≤ (levelOfCount t1 t2 c1).rank := by
  unfold levelOfCount
  split_ifs <;> simp [CongestionLevel.rank] <;> omega

lemma predictList_ok (segs : List RoadSegment) (m : Models) (t : Timestamp) :
    ∀ pending, (∀ s ∈ pending, s ∈ segs) →
      predictList segs m t pending =
        .ok (pending.map fun s => predictOne m s (frow t s.centreline_id)) := by
  intro pending
  induction pending with
  | nil => intro _; rfl
  | cons s rest ih =>
    intro h
    have hs : s ∈ segs := h s (List.mem_cons_self s rest)
    have hrest := ih fun x hx => h x (List.mem_cons_of_mem s hx)
    simp [predictList, encode_ok_of_mem hs, hrest]

/-- C1: for every valid timestamp and every segment of the static list,
encode is deterministic and side-effect-free — two calls with the same
(timestamp, segment) input yield the identical FeatureRow.  (Purity is
intrinsic to the embedding; determinism of the outputs is proved.) -/
theorem encode_deterministic (segs : List RoadSegment) (t : Timestamp)
    (s : RoadSegment) (hs : s ∈ segs) (r1 r2 : FeatureRow)
    (h1 : encode segs t s.centreline_id = .ok r1)
    (h2 : encode segs t s.centreline_id = .ok r2) : r1 = r2 := by
  rw [encode_ok_of_mem hs] at h1 h2
  injection h1 with e1
  injection h2 with e2
  rw [← e1, ← e2]

/-- Witness for C1 at the demo fixtures: encoding Thursday 2024-10-03
17:00 for segment 1 twice yields the same row, hour 17, day-of-week 3,
month 10, not a weekend. -/
theorem encode_deterministic_witness :
    ({ hour := 17, day_of_week := 3, month := 10, is_weekend := false,
       centreline_id := 1 } : FeatureRow) = frow demoTime 1 :=
  encode_deterministic demoSegments demoTime ⟨1, "King St W", 43, -79⟩
    (by simp [demoSegments])
    { hour := 17, day_of_week := 3, month := 10, is_weekend := false,
      centreline_id := 1 }
    (frow demoTime 1) (by rfl) (by rfl)

/-- C5: a request body whose timestamp cannot be parsed into the
calendar fields makes the predict endpoint answer the InvalidTimestamp
client error — the handler stays total, and the failure is terminal for
the request (no retry path exists in the definition). -/
theorem predictEndpoint_invalid_timestamp (st : ServiceState)
    (body : String) (h : parseTimestamp body = none) :
    predictEndpoint st body = .error .invalidTimestamp := by
  unfold predictEndpoint
  rw [h]

/-- Witness for C5: the malformed body "not-a-timestamp" is answered
with InvalidTimestamp. -/
theorem predictEndpoint_invalid_timestamp_witness :
    predictEndpoint demoState "not-a-timestamp" = .error .invalidTimestamp :=
  predictEndpoint_invalid_timestamp demoState "not-a-timestamp" (by rfl)

/-- C6: an identifier absent from the static segment list makes encode
raise UnknownSegment; conversely encode is total — returning a
FeatureRow with no range validation on the timestamp — for every
timestamp and every segment present in the list. -/
theorem encode_total_and_unknown (segs : List RoadSegment) (t : Timestamp) :
    (∀ sid, (∀ s ∈ segs, s.centreline_id ≠ sid) →
        encode segs t sid = .error .unknownSegment) ∧
    (∀ s ∈ segs, encode segs t s.centreline_id = .ok (frow t s.centreline_id)) := by
  constructor
  · intro sid h
    have hany : segs.any (fun s => s.centreline_id = sid) = false := by
      rw [List.any_eq_false]
      intro s hs
      simp [h s hs]
    unfold encode
    rw [hany]
    rfl
  · intro s hs
    exact encode_ok_of_mem hs t

/-- Witness for C6: identifier 999 is unknown to the demo list and
rejected, while segment 1 encodes fine at a timestamp far outside any
training period. -/
theorem encode_total_and_unknown_witness :
    encode demoSegments ⟨2099, 12, 31, 23, 59, 59⟩ 999 =
        .error .unknownSegment ∧
    encode demoSegments ⟨2099, 12, 31, 23, 59, 59⟩ 1 =
        .ok (frow ⟨2099, 12, 31, 23, 59, 59⟩ 1) :=
  ⟨(encode_total_and_unknown demoSegments ⟨2099, 12, 31, 23, 59, 59⟩).1 999
      (by intro s hs; fin_cases hs <;> decide),
   (encode_total_and_unknown demoSegments ⟨2099, 12, 31, 23, 59, 59⟩).2
      ⟨1, "King St W", 43, -79⟩ (by simp [demoSegments])⟩

/-- C7: in every reachable server state in which the models are not yet
loaded, predictAt answers the ModelsNotLoaded failure instead of a
result sequence — no prediction is served before startup loading
completes. -/
theorem predictAt_models_not_loaded (segs : List RoadSegment)
    (st : ServiceState) (_hr : Reachable segs st) (hm : st.models = none)
    (t : Timestamp) :
    predictAt st t = .error .modelsNotLoaded := by
  unfold predictAt
  rw [hm]

/-- Witness for C7: the initial state (reachable by definition) refuses
a prediction with ModelsNotLoaded. -/
theorem predictAt_models_not_loaded_witness :
    predictAt (initState demoSegments) demoTime = .error .modelsNotLoaded :=
  predictAt_models_not_loaded demoSegments (initState demoSegments)
    Reachable.init rfl demoTime

/-- C2: whenever the models are loaded and the timestamp was accepted,
predictAt returns exactly one PredictionResult per known road segment,
in the order of the static segment list (the i-th result carries the
i-th segment's identifier and display name). -/
theorem predictAt_one_per_segment (st : ServiceState) (m : Models)
    (t : Timestamp) (hm : st.models = some m) :
    ∃ rs, predictAt st t = .ok rs ∧ rs.length = st.segments.length ∧
      ∀ i (hi : i < st.segments.length) (hj : i < rs.length),
        (rs.get ⟨i, hj⟩).centreline_id =
            (st.segments.get ⟨i, hi⟩).centreline_id ∧
        (rs.get ⟨i, hj⟩).location_name =
            (st.segments.get ⟨i, hi⟩).location_name := by
  refine ⟨st.segments.map fun s => predictOne m s (frow t s.centreline_id),
    ?_, by simp, ?_⟩
  · rw [predictAt_eq_of_loaded hm]
    exact predictList_ok st.segments m t st.segments fun s hs => hs
  · intro i hi hj
    simp [List.get_eq_getElem, List.getElem_map, predictOne]

/-- Witness for C2: on the two-segment demo state the result list has
length two. -/
theorem predictAt_one_per_segment_witness :
    ∃ rs, predictAt demoState demoTime = .ok rs ∧
      rs.length = demoState.segments.length :=
  match predictAt_one_per_segment demoState demoModels demoTime rfl with
  | ⟨rs, hok, hlen, _⟩ => ⟨rs, hok, hlen⟩

/-- C3: every PredictionResult in a successful predictAt answer carries
a non-negative predicted vehicle count — the raw regressor output is
clamped to non-negative before entering the result. -/
theorem predictAt_nonneg (st : ServiceState) (t : Timestamp)
    (rs : List PredictionResult) (h : predictAt st t = .ok rs) :
    ∀ r ∈ rs, 0 ≤ r.predicted_vehicles := by
  intro r hr
  cases hst : st.models with
  | none =>
    rw [predictAt_eq_of_none hst] at h
    cases h
  | some m =>
    rw [predictAt_eq_of_loaded hst,
      predictList_ok st.segments m t st.segments fun s hs => hs] at h
    injection h with h
    subst h
    simp only [List.mem_map] at hr
    obtain ⟨s, _, hs⟩ := hr
    rw [← hs]
    simp only [predictOne]
    exact le_max_right _ _

/-- Witness for C3: with a regressor that outputs −7 raw, the served
count for segment 1 is clamped, and the theorem certifies it
non-negative. -/
theorem predictAt_nonneg_witness :
    0 ≤ ({ centreline_id := 1, location_name := "King St W",
           latitude := 43, longitude := -79, predicted_vehicles := 0,
           congestion_level := .Low } : PredictionResult).predicted_vehicles :=
  predictAt_nonneg demoNegState demoTime
    [{ centreline_id := 1, location_name := "King St W", latitude := 43,
       longitude := -79, predicted_vehicles := 0, congestion_level := .Low },
     { centreline_id := 2, location_name := "Queen St E", latitude := 44,
       longitude := -78, predicted_vehicles := 0, congestion_level := .Low }]
    (by rfl) _ (by simp)

/-- C4: every served congestion level lies in the fixed set
Low/Medium/High, and with rank-ordered bucket cutoffs the mapping from
predicted count to level is monotone — a strictly higher count never
carries a strictly lower tier. -/
theorem predictAt_congestion_monotone (st : ServiceState) (m : Models)
    (t : Timestamp) (rs : List PredictionResult) (hm : st.models = some m)
    (h12 : m.t1 ≤ m.t2) (h : predictAt st t = .ok rs) :
    ∀ r1 ∈ rs, ∀ r2 ∈ rs,
      (r1.congestion_level = .Low ∨ r1.congestion_level = .Medium ∨
        r1.congestion_level = .High) ∧
      (r2.predicted_vehicles < r1.predicted_vehicles →
        r2.congestion_level.rank ≤ r1.congestion_level.rank) := by
  rw [predictAt_eq_of_loaded hm,
    predictList_ok st.segments m t st.segments fun s hs => hs] at h
  injection h with h
  subst h
  intro r1 h1 r2 h2
  refine ⟨?_, ?_⟩
  · cases r1.congestion_level <;> simp
  · simp only [List.mem_map] at h1 h2
    obtain ⟨s1, _, e1⟩ := h1
    obtain ⟨s2, _, e2⟩ := h2
    subst e1
    subst e2
    intro hlt
    simp only [predictOne] at hlt ⊢
    exact levelOfCount_rank_mono m.t1 m.t2 h12 _ _ (le_of_lt hlt)

/-- Witness for C4: on the demo state segment 1 serves 5 vehicles at
Low and segment 2 serves 15 at Medium; the theorem certifies the rank
inequality between them. -/
theorem predictAt_congestion_monotone_witness :
    CongestionLevel.rank .Low ≤ CongestionLevel.rank .Medium :=
  ((predictAt_congestion_monotone demoState demoModels demoTime
      [{ centreline_id := 1, location_name := "King St W", latitude := 43,
         longitude := -79, predicted_vehicles := 5,
         congestion_level := .Low },
       { centreline_id := 2, location_name := "Queen St E", latitude := 44,
         longitude := -78, predicted_vehicles := 15,
         congestion_level := .Medium }]
      rfl (by decide) (by rfl)
      { centreline_id := 2, location_name := "Queen St E", latitude := 44,
        longitude := -78, predicted_vehicles := 15,
        congestion_level := .Medium } (by simp)
      { centreline_id := 1, location_name := "King St W", latitude := 43,
        longitude := -79, predicted_vehicles := 5,
        congestion_level := .Low } (by simp)).2 (by decide))

/-- Demo fixture: a prediction as the dashboard would receive it for
segment 1. -/
def demoP1 : TrafficPrediction := ⟨1, "King St W", 43, -79, 5, .Low⟩

/-- Demo fixture: a prediction as the dashboard would receive it for
segment 2. -/
def demoP2 : TrafficPrediction := ⟨2, "Queen St E", 44, -78, 15, .Medium⟩

lemma totalVehicles_aux (l : List TrafficPrediction) :
    ∀ a : Int,
      l.foldl (fun sum p => sum + p.predicted_vehicles) a =
        a + (l.map fun p => p.predicted_vehicles).sum := by
  induction l with
  | nil => intro a; simp
  | cons p l ih =>
    intro a
    simp only [List.foldl_cons, List.map_cons, List.sum_cons, ih]
    omega

lemma congestionCount_aux (lvl : CongestionLevel)
    (l : List TrafficPrediction) :
    ∀ n : Nat,
      l.foldl (fun acc p => if p.congestion_level = lvl then acc + 1 else acc)
          n =
        n + l.countP fun p => p.congestion_level = lvl := by
  induction l with
  | nil => intro n; simp
  | cons p l ih =>
    intro n
    simp only [List.foldl_cons, List.countP_cons, ih]
    by_cases hc : p.congestion_level = lvl <;> (simp [hc]; try omega)

lemma congestionCount_eq (ps : List TrafficPrediction)
    (lvl : CongestionLevel) :
    congestionCount ps lvl = ps.countP fun p => p.congestion_level = lvl := by
  unfold congestionCount
  simpa using congestionCount_aux lvl ps 0

lemma congestionCount_partition (ps : List TrafficPrediction) :
    congestionCount ps .Low + congestionCount ps .Medium +
        congestionCount ps .High = ps.length := by
  simp only [congestionCount_eq]
  induction ps with
  | nil => rfl
  | cons p ps ih =>
    simp only [List.countP_cons, List.length_cons]
    cases hl : p.congestion_level <;> simp [hl] <;> omega

lemma reduceBusiest_le (l : List TrafficPrediction) :
    ∀ acc : TrafficPrediction,
      acc.predicted_vehicles ≤ (reduceBusiest acc l).predicted_vehicles := by
  induction l with
  | nil => intro acc; exact le_refl _
  | cons p l ih =>
    intro acc
    simp only [reduceBusiest]
    by_cases hc : acc.predicted_vehicles < p.predicted_vehicles
    · simp only [if_pos hc]
      exact le_trans (le_of_lt hc) (ih p)
    · simp only [if_neg hc]
      exact ih acc

lemma reduceBusiest_mem (l : List TrafficPrediction) :
    ∀ acc : TrafficPrediction,
      reduceBusiest acc l = acc ∨ reduceBusiest acc l ∈ l := by
  induction l with
  | nil => intro acc; exact .inl rfl
  | cons p l ih =>
    intro acc
    simp only [reduceBusiest]
    by_cases hc : acc.predicted_vehicles < p.predicted_vehicles
    · simp only [if_pos hc]
      rcases ih p with h | h
      · exact .inr (by rw [h]; exact List.mem_cons_self p l)
      · exact .inr (List.mem_cons_of_mem p h)
    · simp only [if_neg hc]
      rcases ih acc with h | h
      · exact .inl h
      · exact .inr (List.mem_cons_of_mem p h)

lemma reduceBusiest_ge (l : List TrafficPrediction) :
    ∀ acc : TrafficPrediction, ∀ q ∈ l,
      q.predicted_vehicles ≤ (reduceBusiest acc l).predicted_vehicles := by
  induction l with
  | nil => intro acc q hq; cases hq
  | cons p l ih =>
    intro acc q hq
    simp only [reduceBusiest]
    rcases List.mem_cons.mp hq with hq | hq
    · subst hq
      by_cases hc : acc.predicted_vehicles < q.predicted_vehicles
      · simp only [if_pos hc]
        exact reduceBusiest_le l q
      · simp only [if_neg hc]
        exact le_trans (le_of_not_lt hc) (reduceBusiest_le l acc)
    · by_cases hc : acc.predicted_vehicles < p.predicted_vehicles <;>
        simp only [if_pos, if_neg, hc] <;> exact ih _ q hq

lemma reduceQuietest_le (l : List TrafficPrediction) :
    ∀ acc : TrafficPrediction,
      (reduceQuietest acc l).predicted_vehicles ≤ acc.predicted_vehicles := by
  induction l with
  | nil => intro acc; exact le_refl _
  | cons p l ih =>
    intro acc
    simp only [reduceQuietest]
    by_cases hc : p.predicted_vehicles < acc.predicted_vehicles
    · simp only [if_pos hc]
      exact le_trans (ih p) (le_of_lt hc)
    · simp only [if_neg hc]
      exact ih acc

lemma reduceQuietest_mem (l : List TrafficPrediction) :
    ∀ acc : TrafficPrediction,
      reduceQuietest acc l = acc ∨ reduceQuietest acc l ∈ l := by
  induction l with
  | nil => intro acc; exact .inl rfl
  | cons p l ih =>
    intro acc
    simp only [reduceQuietest]
    by_cases hc : p.predicted_vehicles < acc.predicted_vehicles
    · simp only [if_pos hc]
      rcases ih p with h | h
      · exact .inr (by rw [h]; exact List.mem_cons_self p l)
      · exact .inr (List.mem_cons_of_mem p h)
    · simp only [if_neg hc]
      rcases ih acc with h | h
      · exact .inl h
      · exact .inr (List.mem_cons_of_mem p h)

lemma reduceQuietest_ge (l : List TrafficPrediction) :
    ∀ acc : TrafficPrediction, ∀ q ∈ l,
      (reduceQuietest acc l).predicted_vehicles ≤ q.predicted_vehicles := by
  induction l with
  | nil => intro acc q hq; cases hq
  | cons p l ih =>
    intro acc q hq
    simp only [reduceQuietest]
    rcases List.mem_cons.mp hq with hq | hq
    · subst hq
      by_cases hc : q.predicted_vehicles < acc.predicted_vehicles
      · simp only [if_pos hc]
        exact reduceQuietest_le l q
      · simp only [if_neg hc]
        exact le_trans (reduceQuietest_le l acc) (le_of_not_lt hc)
    · by_cases hc : p.predicted_vehicles < acc.predicted_vehicles <;>
        simp only [if_pos, if_neg, hc] <;> exact ih _ q hq

/-- C8: on every non-empty predictions list the PredictionStats
aggregates are pure functions of the list — total is the sum of
predicted_vehicles, average is the JS-rounded quotient of that sum by
the length, the histogram counts each prediction once under its level,
and busiest (quietest) is a list member attaining the maximum
(minimum) predicted_vehicles. -/
theorem predictionStats_aggregates (p : TrafficPrediction)
    (rest : List TrafficPrediction) :
    ∃ d, predictionStats (p :: rest) = .stats d ∧
      d.total = ((p :: rest).map fun q => q.predicted_vehicles).sum ∧
      d.avg = jsRound ((d.total : Rat) / (((p :: rest).length : Nat) : Rat)) ∧
      d.countLow = (p :: rest).countP (fun q => q.congestion_level = .Low) ∧
      d.countMedium =
          (p :: rest).countP (fun q => q.congestion_level = .Medium) ∧
      d.countHigh = (p :: rest).countP (fun q => q.congestion_level = .High) ∧
      d.countLow + d.countMedium + d.countHigh = (p :: rest).length ∧
      d.busiestLocation ∈ p :: rest ∧
      (∀ q ∈ p :: rest,
        q.predicted_vehicles ≤ d.busiestLocation.predicted_vehicles) ∧
      d.quietestLocation ∈ p :: rest ∧
      (∀ q ∈ p :: rest,
        d.quietestLocation.predicted_vehicles ≤ q.predicted_vehicles) := by
  refine ⟨_, rfl, ?_, rfl, congestionCount_eq _ _, congestionCount_eq _ _,
    congestionCount_eq _ _, congestionCount_partition _, ?_, ?_, ?_, ?_⟩
  · simpa [totalVehicles] using totalVehicles_aux (p :: rest) 0
  · show reduceBusiest p rest ∈ p :: rest
    rcases reduceBusiest_mem rest p with h | h
    · rw [h]
      exact List.mem_cons_self p rest
    · exact List.mem_cons_of_mem p h
  · intro q hq
    show q.predicted_vehicles ≤ (reduceBusiest p rest).predicted_vehicles
    rcases List.mem_cons.mp hq with hq | hq
    · rw [hq]
      exact reduceBusiest_le rest p
    · exact reduceBusiest_ge rest p q hq
  · show reduceQuietest p rest ∈ p :: rest
    rcases reduceQuietest_mem rest p with h | h
    · rw [h]
      exact List.mem_cons_self p rest
    · exact List.mem_cons_of_mem p h
  · intro q hq
    show (reduceQuietest p rest).predicted_vehicles ≤ q.predicted_vehicles
    rcases List.mem_cons.mp hq with hq | hq
    · rw [hq]
      exact reduceQuietest_le rest p
    · exact reduceQuietest_ge rest p q hq

/-- Witness for C8: on the two demo predictions the component reports
some statistics record, and the theorem pins its aggregates to the
list. -/
theorem predictionStats_aggregates_witness :
    ∃ d, predictionStats [demoP1, demoP2] = .stats d ∧
      d.total = ([demoP1, demoP2].map fun q => q.predicted_vehicles).sum :=
  match predictionStats_aggregates demoP1 [demoP2] with
  | ⟨d, hd, htotal, _⟩ => ⟨d, hd, htotal⟩

/-- C9: PredictionStats is total over every predictions list — the
empty list, and only the empty list, takes the early no-data branch,
so the seedless busiest/quietest reduces are only ever reached on a
non-empty list. -/
theorem predictionStats_empty_guard (ps : List TrafficPrediction) :
    predictionStats ps = .noData ↔ ps = [] := by
  cases ps with
  | nil => simp [predictionStats]
  | cons p rest => simp [predictionStats]

/-- Witness for C9: the empty list yields the no-data card. -/
theorem predictionStats_empty_guard_witness :
    predictionStats [] = .noData :=
  (predictionStats_empty_guard []).mpr rfl

/-- C10: TrafficMap builds exactly one marker per prediction in list
order — id is the decimal string of centreline_id, lat/lng are the
prediction's coordinates, and congestion level and vehicle count are
copied unchanged. -/
theorem trafficMap_markers_pointwise (ps : List TrafficPrediction) :
    (markers ps).length = ps.length ∧
    ∀ i (hi : i < ps.length) (hj : i < (markers ps).length),
      ((markers ps).get ⟨i, hj⟩).id =
          toString ((ps.get ⟨i, hi⟩).centreline_id) ∧
      ((markers ps).get ⟨i, hj⟩).lat = (ps.get ⟨i, hi⟩).latitude ∧
      ((markers ps).get ⟨i, hj⟩).lng = (ps.get ⟨i, hi⟩).longitude ∧
      ((markers ps).get ⟨i, hj⟩).congestion_level =
          (ps.get ⟨i, hi⟩).congestion_level ∧
      ((markers ps).get ⟨i, hj⟩).vehicle_count =
          (ps.get ⟨i, hi⟩).predicted_vehicles ∧
      ((markers ps).get ⟨i, hj⟩).location_name =
          (ps.get ⟨i, hi⟩).location_name := by
  refine ⟨by simp [markers], ?_⟩
  intro i hi hj
  simp [markers, toMarker, List.get_eq_getElem, List.getElem_map]

/-- Witness for C10: the demo list of two predictions yields two
markers, and the first marker's id is the decimal string "1". -/
theorem trafficMap_markers_pointwise_witness :
    (markers [demoP1, demoP2]).length = [demoP1, demoP2].length ∧
    ((markers [demoP1, demoP2]).get ⟨0, by simp [markers]⟩).id =
        toString (([demoP1, demoP2].get ⟨0, by simp⟩).centreline_id) :=
  ⟨(trafficMap_markers_pointwise [demoP1, demoP2]).1,
   ((trafficMap_markers_pointwise [demoP1, demoP2]).2 0 (by simp)
      (by simp [markers])).1⟩

end SixFlow
